import Mathlib

/-!
Verification development for the ECE terraform provider's elasticsearch
cluster resource.  The Go sources are shallowly embedded: the dynamic
`map[string]interface{}` configuration trees become records of `Option`
fields (a key present in the map is `some`, an absent key is `none`),
Go slices become `List`s (a `nil` slice that the code distinguishes from
an empty one becomes an `Option (List _)`), Go `int` becomes `Int`, and a
Go runtime panic (out-of-range index) is an `Option.none` result.
HTTP interactions are modelled by environments that record, per client
call, the outcome the remote control plane produced; the resource
operations are pure functions of the desired state, the persisted
resource data and such an environment, returning the updated resource
data, the list of API calls issued and the operation result.
-/

/-- Combinations of Elasticsearch node roles (struct `ElasticsearchNodeType`). -/
structure ElasticsearchNodeType where
  data : Bool
  ingest : Bool
  master : Bool
  ml : Bool
deriving DecidableEq, Repr

/-- Default node roles (`DefaultElasticsearchNodeType`): data, ingest and
master enabled, ml disabled. -/
def DefaultElasticsearchNodeType : ElasticsearchNodeType :=
  { data := true, ingest := true, master := true, ml := false }

/-- One homogeneous node group of the plan
(struct `ElasticsearchClusterTopologyElement`). -/
structure ElasticsearchClusterTopologyElement where
  memoryPerNode : Int
  nodeCountPerZone : Int
  nodeType : ElasticsearchNodeType
  zoneCount : Int
deriving DecidableEq, Repr

/-- Default topology element (`DefaultElasticsearchClusterTopologyElement`):
1024 MB per node, one node per zone, one zone, default roles. -/
def DefaultElasticsearchClusterTopologyElement : ElasticsearchClusterTopologyElement :=
  { memoryPerNode := 1024
    nodeCountPerZone := 1
    nodeType := DefaultElasticsearchNodeType
    zoneCount := 1 }

/-- Engine configuration (struct `ElasticsearchConfiguration`). -/
structure ElasticsearchConfiguration where
  version : String
deriving DecidableEq, Repr

/-- The wire-level cluster plan (struct `ElasticsearchClusterPlan`):
topology elements, engine configuration and a plan-level zone count. -/
structure ElasticsearchClusterPlan where
  clusterTopology : List ElasticsearchClusterTopologyElement
  elasticsearch : ElasticsearchConfiguration
  zoneCount : Int
deriving DecidableEq, Repr

/-- Per-instance live information (struct `ClusterInstanceInfo`).  The Go
field is a slice that the flattener compares against `nil`, hence the
`Option`. -/
structure ClusterInstanceInfo where
  serviceRoles : Option (List String)
deriving DecidableEq, Repr

/-- Live topology of a cluster (struct `ClusterTopologyInfo`). -/
structure ClusterTopologyInfo where
  healthy : Bool
  instances : List ClusterInstanceInfo
deriving DecidableEq, Repr

/-- Log message of one stage of an executed plan step
(struct `ClusterPlanStepLogMessageInfo`). -/
structure ClusterPlanStepLogMessageInfo where
  deltaMS : Int
  message : String
  stage : String
  timestamp : String
deriving DecidableEq, Repr

/-- One step of a plan attempt (struct `ClusterPlanStepInfo`). -/
structure ClusterPlanStepInfo where
  completed : String
  durationMS : Int
  infoLog : List ClusterPlanStepLogMessageInfo
  stage : String
  started : String
  status : String
  stepID : String
deriving DecidableEq, Repr

/-- One plan attempt of a cluster (struct `ElasticsearchClusterPlanInfo`). -/
structure ElasticsearchClusterPlanInfo where
  attemptEndTime : String
  attemptStartTime : String
  healthy : Bool
  plan : ElasticsearchClusterPlan
  planAttemptID : String
  planAttemptLog : List ClusterPlanStepInfo
  planAttemptName : String
  planEndTime : String
deriving DecidableEq, Repr

/-- Current/pending/history plan records (struct
`ElasticsearchClusterPlansInfo`). -/
structure ElasticsearchClusterPlansInfo where
  current : ElasticsearchClusterPlanInfo
  healthy : Bool
  history : List ElasticsearchClusterPlanInfo
  pending : ElasticsearchClusterPlanInfo
deriving DecidableEq, Repr

/-- Reference to an associated Kibana cluster (struct `KibanaSubClusterInfo`). -/
structure KibanaSubClusterInfo where
  enabled : Bool
  kibanaID : String
deriving DecidableEq, Repr

/-- Full read result for an elasticsearch cluster
(struct `ElasticsearchClusterInfo`). -/
structure ElasticsearchClusterInfo where
  clusterID : String
  clusterName : String
  healthy : Bool
  planInfo : ElasticsearchClusterPlansInfo
  associatedKibanaClusters : List KibanaSubClusterInfo
  status : String
  topology : ClusterTopologyInfo
deriving DecidableEq, Repr

/-- Credentials returned once at creation (struct `ClusterCredentials`). -/
structure ClusterCredentials where
  password : String
  username : String
deriving DecidableEq, Repr

/-- Response of the cluster create call (struct `ClusterCrudResponse`). -/
structure ClusterCrudResponse where
  credentials : ClusterCredentials
  elasticsearchClusterID : String
  kibanaClusterID : String
deriving DecidableEq, Repr

/-- The `node_type` sub-map of a desired-state topology element: each of
the four role booleans may be present or absent in the map. -/
structure NodeTypeOptMap where
  data : Option Bool
  ingest : Option Bool
  master : Option Bool
  ml : Option Bool
deriving DecidableEq, Repr

/-- One element of the desired-state `cluster_topology` list, with possibly
absent keys.  The `node_type` key, when present, holds a list of role maps
of which only the head is read. -/
structure TopologyElementMap where
  memory_per_node : Option Int
  node_count_per_zone : Option Int
  node_type : Option (List NodeTypeOptMap)
  zone_count : Option Int
deriving DecidableEq, Repr

/-- The `elasticsearch` sub-map of the desired-state plan. -/
structure ElasticsearchMap where
  version : String
deriving DecidableEq, Repr

/-- The desired-state `plan` map: a topology list and an engine block list
(both read with a direct type assertion in the Go code, so required). -/
structure PlanMap where
  cluster_topology : List TopologyElementMap
  elasticsearch : List ElasticsearchMap
deriving DecidableEq, Repr

/-- `expandElasticsearchNodeTypeFromMap`: sparse-override merge of the role
booleans present in the map over the given node type. -/
def expandElasticsearchNodeTypeFromMap (nodeType : ElasticsearchNodeType)
    (nodeTypeMap : NodeTypeOptMap) : ElasticsearchNodeType :=
  let nt1 := match nodeTypeMap.data with
    | some v => { nodeType with data := v }
    | none => nodeType
  let nt2 := match nodeTypeMap.ingest with
    | some v => { nt1 with ingest := v }
    | none => nt1
  let nt3 := match nodeTypeMap.master with
    | some v => { nt2 with master := v }
    | none => nt2
  match nodeTypeMap.ml with
  | some v => { nt3 with ml := v }
  | none => nt3

/-- Body of the per-element loop of `expandElasticsearchClusterTopology`:
starts from the default element and overrides each field whose key is
present in the element map. -/
def expandTopologyElementFromMap (elementMap : TopologyElementMap) :
    ElasticsearchClusterTopologyElement :=
  let e0 := DefaultElasticsearchClusterTopologyElement
  let e1 := match elementMap.memory_per_node with
    | some v => { e0 with memoryPerNode := v }
    | none => e0
  let e2 := match elementMap.node_count_per_zone with
    | some v => { e1 with nodeCountPerZone := v }
    | none => e1
  let e3 := match elementMap.node_type with
    | some nodeTypeMaps =>
      let nodeType := match nodeTypeMaps with
        | [] => DefaultElasticsearchNodeType
        | ntm :: _ => expandElasticsearchNodeTypeFromMap DefaultElasticsearchNodeType ntm
      { e2 with nodeType := nodeType }
    | none => e2
  match elementMap.zone_count with
  | some v => { e3 with zoneCount := v }
  | none => e3

/-- `expandElasticsearchClusterTopology`: expand every element of the input
topology list; an empty list synthesizes one default element. -/
def expandElasticsearchClusterTopology (clusterPlanMap : PlanMap) :
    List ElasticsearchClusterTopologyElement :=
  let clusterTopology := clusterPlanMap.cluster_topology.map expandTopologyElementFromMap
  if clusterTopology.length = 0 then
    [DefaultElasticsearchClusterTopologyElement]
  else
    clusterTopology

/-- `expandElasticsearchConfiguration`: read the single engine block; an
empty list is the "cluster version is required" configuration error. -/
def expandElasticsearchConfiguration (clusterPlanMap : PlanMap) :
    Except String ElasticsearchConfiguration :=
  match clusterPlanMap.elasticsearch with
  | [] => .error "cluster version is required"
  | elasticsearchMap :: _ => .ok { version := elasticsearchMap.version }

/-- `expandElasticsearchClusterPlan`: expand the head of the `plan` list.
The Go code indexes `clusterPlanList[0]` unconditionally, so an empty list
is a runtime panic, modelled as `none`.  The constructed plan leaves the
plan-level zone count at the Go zero value 0. -/
def expandElasticsearchClusterPlan (clusterPlanList : List PlanMap) :
    Option (Except String ElasticsearchClusterPlan) :=
  match clusterPlanList with
  | [] => none
  | clusterPlanMap :: _ =>
    some (match expandElasticsearchConfiguration clusterPlanMap with
      | .error e => .error e
      | .ok cfg =>
        .ok { clusterTopology := expandElasticsearchClusterTopology clusterPlanMap
              elasticsearch := cfg
              zoneCount := 0 })

/-- Flattened `node_type` value: the Go function returns a
`map[string]interface{}` that is either empty (no live instances at all)
or carries all four role booleans. -/
inductive FlatNodeType where
  | emptyMap
  | roles (nt : ElasticsearchNodeType)
deriving DecidableEq, Repr

/-- One element of the flattened `cluster_topology` list: every key is
written unconditionally by the flattener. -/
structure FlatTopologyElement where
  memory_per_node : Int
  node_count_per_zone : Int
  node_type : FlatNodeType
  zone_count : Int
deriving DecidableEq, Repr

/-- Flattened `elasticsearch` block. -/
structure FlatElasticsearchMap where
  version : String
deriving DecidableEq, Repr

/-- The flattened `plan` map written back into the declarative state. -/
structure FlatPlanMap where
  cluster_topology : List FlatTopologyElement
  elasticsearch : List FlatElasticsearchMap
deriving DecidableEq, Repr

/-- The `nodeTypeValues` map built by `flattenElasticsearchNodeType`: one
key per reported service role, each mapped to `true`; the expander then
only reads the four role keys.  A key is present exactly when the role
name occurs in the instance's service-role list. -/
def rolesToNodeTypeOptMap (serviceRoles : List String) : NodeTypeOptMap :=
  { data := if serviceRoles.contains "data" then some true else none
    ingest := if serviceRoles.contains "ingest" then some true else none
    master := if serviceRoles.contains "master" then some true else none
    ml := if serviceRoles.contains "ml" then some true else none }

/-- `flattenElasticsearchNodeType`: when the live instance list is
non-empty, index it at the topology position (an out-of-range index is a
Go runtime panic, modelled as `none`) and rebuild the role booleans from
the instance's service roles over a zero-valued node type; an empty
instance list yields the empty map. -/
def flattenElasticsearchNodeType (clusterInfo : ElasticsearchClusterInfo)
    (instanceIndex : Nat) : Option FlatNodeType :=
  if 0 < clusterInfo.topology.instances.length then
    match clusterInfo.topology.instances[instanceIndex]? with
    | none => none
    | some inst =>
      let nodeType : ElasticsearchNodeType :=
        { data := false, ingest := false, master := false, ml := false }
      let nodeType := match inst.serviceRoles with
        | some roles =>
          expandElasticsearchNodeTypeFromMap nodeType (rolesToNodeTypeOptMap roles)
        | none => nodeType
      some (FlatNodeType.roles nodeType)
  else
    some FlatNodeType.emptyMap

/-- Indexed loop of `flattenElasticsearchClusterTopology`: flatten each
plan element at its position, threading the plan-level zone count as the
fallback; a panic of the per-element flattening aborts the whole list. -/
def flattenElasticsearchClusterTopologyAux (clusterInfo : ElasticsearchClusterInfo)
    (defaultZoneCount : Int) :
    Nat → List ElasticsearchClusterTopologyElement → Option (List FlatTopologyElement)
  | _, [] => some []
  | i, t :: rest =>
    match flattenElasticsearchNodeType clusterInfo i with
    | none => none
    | some nt =>
      match flattenElasticsearchClusterTopologyAux clusterInfo defaultZoneCount (i + 1) rest with
      | none => none
      | some restFlat =>
        some ({ memory_per_node := t.memoryPerNode
                node_count_per_zone := t.nodeCountPerZone
                node_type := nt
                zone_count := if t.zoneCount > 0 then t.zoneCount else defaultZoneCount }
              :: restFlat)

/-- `flattenElasticsearchClusterTopology`: flatten the current plan's
topology, using the element's own zone count when positive and the
plan-level zone count otherwise. -/
def flattenElasticsearchClusterTopology (clusterInfo : ElasticsearchClusterInfo)
    (clusterPlan : ElasticsearchClusterPlan) : Option (List FlatTopologyElement) :=
  flattenElasticsearchClusterTopologyAux clusterInfo clusterPlan.zoneCount 0
    clusterPlan.clusterTopology

/-- `flattenElasticsearchConfiguration`: a one-element list holding the
engine version. -/
def flattenElasticsearchConfiguration (configuration : ElasticsearchConfiguration) :
    List FlatElasticsearchMap :=
  [{ version := configuration.version }]

/-- `flattenElasticsearchClusterPlan`: flatten the current plan of a
cluster-info response into the declarative tree shape. -/
def flattenElasticsearchClusterPlan (clusterInfo : ElasticsearchClusterInfo) :
    Option FlatPlanMap :=
  let clusterPlan := clusterInfo.planInfo.current.plan
  match flattenElasticsearchClusterTopology clusterInfo clusterPlan with
  | none => none
  | some topologyFlat =>
    some { cluster_topology := topologyFlat
           elasticsearch := flattenElasticsearchConfiguration clusterPlan.elasticsearch }

/-- The canonical service-role list of a node type: exactly the role names
whose booleans are true. -/
def serviceRolesOfNodeType (nt : ElasticsearchNodeType) : List String :=
  (if nt.data then ["data"] else []) ++ (if nt.ingest then ["ingest"] else [])
    ++ (if nt.master then ["master"] else []) ++ (if nt.ml then ["ml"] else [])

/-- An all-default plan-attempt record around a given plan. -/
def planInfoOf (plan : ElasticsearchClusterPlan) : ElasticsearchClusterPlanInfo :=
  { attemptEndTime := ""
    attemptStartTime := ""
    healthy := true
    plan := plan
    planAttemptID := ""
    planAttemptLog := []
    planAttemptName := ""
    planEndTime := "" }

/-- The empty cluster plan (all Go zero values). -/
def emptyElasticsearchClusterPlan : ElasticsearchClusterPlan :=
  { clusterTopology := [], elasticsearch := { version := "" }, zoneCount := 0 }

/-- The cluster-info response of the round-trip scenario: the current plan
is the given plan, and the live instance list is index-aligned with the
plan's topology, each instance reporting as service roles exactly the role
names whose booleans are true in the corresponding element. -/
def roundTripClusterInfo (plan : ElasticsearchClusterPlan) : ElasticsearchClusterInfo :=
  { clusterID := "cluster-0"
    clusterName := ""
    healthy := true
    planInfo :=
      { current := planInfoOf plan
        healthy := true
        history := []
        pending := planInfoOf emptyElasticsearchClusterPlan }
    associatedKibanaClusters := []
    status := "started"
    topology :=
      { healthy := true
        instances := plan.clusterTopology.map (fun t =>
          { serviceRoles := some (serviceRolesOfNodeType t.nodeType) }) } }

/-- Reading of a desired-state topology element in the flattened tree
shape, interpreting absent keys at their schema defaults. -/
def topologyElementMapAsFlat (em : TopologyElementMap) : FlatTopologyElement :=
  { memory_per_node := em.memory_per_node.getD 1024
    node_count_per_zone := em.node_count_per_zone.getD 1
    node_type := FlatNodeType.roles (match em.node_type with
      | some (ntm :: _) =>
        { data := ntm.data.getD true
          ingest := ntm.ingest.getD true
          master := ntm.master.getD true
          ml := ntm.ml.getD false }
      | _ => DefaultElasticsearchNodeType)
    zone_count := em.zone_count.getD 1 }

/-- Reading of a desired-state plan map in the flattened tree shape, for
comparing the flattener's output against the original input tree. -/
def planMapAsFlatTree (pm : PlanMap) : FlatPlanMap :=
  { cluster_topology := pm.cluster_topology.map topologyElementMapAsFlat
    elasticsearch := pm.elasticsearch.map (fun em => { version := em.version }) }

/-- A fully-specified role map: all four booleans present. -/
def nodeTypeOptMapFull (m : NodeTypeOptMap) : Bool :=
  m.data.isSome && m.ingest.isSome && m.master.isSome && m.ml.isSome

/-- A fully-specified topology element: all fields present, the `node_type`
key holding exactly one fully-specified role map, and a positive zone
count. -/
def topologyElementMapFull (em : TopologyElementMap) : Bool :=
  em.memory_per_node.isSome && em.node_count_per_zone.isSome
    && (match em.node_type with
      | some [ntm] => nodeTypeOptMapFull ntm
      | _ => false)
    && (match em.zone_count with
      | some z => decide (0 < z)
      | none => false)

/-- A fully-specified desired-state plan: at least one topology element,
every element fully specified, and exactly one engine block (the schema
caps the `elasticsearch` list at one item). -/
def planMapFull (pm : PlanMap) : Bool :=
  !pm.cluster_topology.isEmpty
    && pm.cluster_topology.all topologyElementMapFull
    && pm.elasticsearch.length == 1

/-- C2 counterexample input: a current plan with two topology elements but
only one live instance. -/
def shortInstancesInfoEx : ElasticsearchClusterInfo :=
  { clusterID := "c1"
    clusterName := ""
    healthy := true
    planInfo :=
      { current := planInfoOf
          { clusterTopology :=
              [DefaultElasticsearchClusterTopologyElement,
               DefaultElasticsearchClusterTopologyElement]
            elasticsearch := { version := "7.2.0" }
            zoneCount := 1 }
        healthy := true
        history := []
        pending := planInfoOf emptyElasticsearchClusterPlan }
    associatedKibanaClusters := []
    status := "started"
    topology :=
      { healthy := true
        instances := [{ serviceRoles := some ["data", "ingest", "master"] }] } }

/-- A second short-instance input: three topology elements, two live
instances. -/
def shortInstancesInfoEx2 : ElasticsearchClusterInfo :=
  { clusterID := "c2"
    clusterName := ""
    healthy := true
    planInfo :=
      { current := planInfoOf
          { clusterTopology :=
              [DefaultElasticsearchClusterTopologyElement,
               DefaultElasticsearchClusterTopologyElement,
               DefaultElasticsearchClusterTopologyElement]
            elasticsearch := { version := "7.2.0" }
            zoneCount := 1 }
        healthy := true
        history := []
        pending := planInfoOf emptyElasticsearchClusterPlan }
    associatedKibanaClusters := []
    status := "started"
    topology :=
      { healthy := true
        instances := [{ serviceRoles := some ["data"] },
                      { serviceRoles := some ["master"] }] } }

/-- C8 witness input: a single topology element with zone count 0 under a
plan-level zone count of 3. -/
def zoneFallbackPlanEx : ElasticsearchClusterPlan :=
  { clusterTopology :=
      [{ memoryPerNode := 2048
         nodeCountPerZone := 1
         nodeType := DefaultElasticsearchNodeType
         zoneCount := 0 }]
    elasticsearch := { version := "7.2.0" }
    zoneCount := 3 }

/-- Expected flattened element of the C8 witness input. -/
def zoneFallbackFlatEx : FlatTopologyElement :=
  { memory_per_node := 2048
    node_count_per_zone := 1
    node_type := FlatNodeType.roles DefaultElasticsearchNodeType
    zone_count := 3 }

/-- C1 witness input: a fully-specified desired-state plan map. -/
def roundTripPlanMapEx : PlanMap :=
  { cluster_topology :=
      [{ memory_per_node := some 2048
         node_count_per_zone := some 1
         node_type := some [{ data := some true
                              ingest := some false
                              master := some true
                              ml := some true }]
         zone_count := some 2 }]
    elasticsearch := [{ version := "7.2.0" }] }

/-- Errors surfaced by the resource operations and client calls. -/
inductive ECEError where
  | clientError (s : String)
  | decodeError (s : String)
  | configError (s : String)
  | notFoundForUpdate
  | activityNotFound
  | kibanaActivityNotFound
  | planFailure (msgs : List ClusterPlanStepLogMessageInfo)
  | kibanaPlanFailure (msgs : List ClusterPlanStepLogMessageInfo)
  | waitTimeout
  | panicIndexOutOfRange
deriving DecidableEq, Repr

/-- Loop of `validateElasticsearchClusterPlanActivity` (and of its Kibana
twin): collect, in order, the info-log messages of every plan step whose
status is not "success". -/
def failedPlanStepLogMessages : List ClusterPlanStepInfo → List ClusterPlanStepLogMessageInfo
  | [] => []
  | stepInfo :: rest =>
    (if stepInfo.status != "success" then stepInfo.infoLog else [])
      ++ failedPlanStepLogMessages rest

deriving instance DecidableEq for Except

/-- Outcome of a plan-activity fetch: a client error, or a response with a
status code and a decoded (or undecodable) body. -/
inductive ElasticsearchActivityFetch where
  | fetchFailure (s : String)
  | resp (statusCode : Nat) (decoded : Except String ElasticsearchClusterPlansInfo)
deriving DecidableEq, Repr

/-- `validateElasticsearchClusterPlanActivity`: a 404 is an error; on an
unhealthy current plan the collected non-success step messages form the
failure; a healthy plan validates. -/
def validateElasticsearchClusterPlanActivity (fetch : ElasticsearchActivityFetch) :
    Except ECEError Unit :=
  match fetch with
  | .fetchFailure s => .error (.clientError s)
  | .resp statusCode decoded =>
    if statusCode == 404 then
      .error .activityNotFound
    else
      match decoded with
      | .error s => .error (.decodeError s)
      | .ok clusterPlansInfo =>
        if !clusterPlansInfo.current.healthy then
          .error (.planFailure
            (failedPlanStepLogMessages clusterPlansInfo.current.planAttemptLog))
        else
          .ok ()

/-- Modelled from the spec: the Kibana topology element used by the
resource code (`KibanaClusterTopologyElement` with memory/node-count/zone
fields) is not among the provided sources; per the spec, the companion
plan is structurally parallel to the cluster plan minus the role set. -/
structure KibanaClusterTopologyElement where
  memoryPerNode : Int
  nodeCountPerZone : Int
  zoneCount : Int
deriving DecidableEq, Repr

/-- Modelled from the spec: the Kibana cluster plan with topology elements
and a plan-level zone count (parallel to `ElasticsearchClusterPlan`). -/
structure KibanaClusterPlan where
  clusterTopology : List KibanaClusterTopologyElement
  zoneCount : Int
deriving DecidableEq, Repr

/-- Modelled from the spec: the default Kibana topology element with the
documented defaults (memory 1024, one node per zone, one zone). -/
def DefaultKibanaClusterTopologyElement : KibanaClusterTopologyElement :=
  { memoryPerNode := 1024, nodeCountPerZone := 1, zoneCount := 1 }

/-- Modelled from the spec: the default Kibana plan, one default topology
element and one zone. -/
def DefaultKibanaClusterPlan : KibanaClusterPlan :=
  { clusterTopology := [DefaultKibanaClusterTopologyElement], zoneCount := 1 }

/-- Request body for creating a Kibana cluster (struct
`CreateKibanaRequest`): name, reference to the primary cluster, plan. -/
structure CreateKibanaRequest where
  clusterName : String
  elasticsearchClusterID : String
  plan : KibanaClusterPlan
deriving DecidableEq, Repr

/-- One element of the desired-state Kibana `cluster_topology` list. -/
structure KibanaTopologyElementMap where
  memory_per_node : Option Int
  node_count_per_zone : Option Int
  zone_count : Option Int
deriving DecidableEq, Repr

/-- The desired-state Kibana `plan` map. -/
structure KibanaPlanMap where
  zone_count : Option Int
  cluster_topology : Option (List KibanaTopologyElementMap)
deriving DecidableEq, Repr

/-- The desired-state `kibana` block. -/
structure KibanaMap where
  cluster_name : Option String
  plan : Option (List KibanaPlanMap)
deriving DecidableEq, Repr

/-- Per-element body of `expandKibanaClusterTopology`. -/
def expandKibanaTopologyElementFromMap (elementMap : KibanaTopologyElementMap) :
    KibanaClusterTopologyElement :=
  let e0 := DefaultKibanaClusterTopologyElement
  let e1 := match elementMap.memory_per_node with
    | some v => { e0 with memoryPerNode := v }
    | none => e0
  let e2 := match elementMap.node_count_per_zone with
    | some v => { e1 with nodeCountPerZone := v }
    | none => e1
  match elementMap.zone_count with
  | some v => { e2 with zoneCount := v }
  | none => e2

/-- `expandKibanaClusterTopology`: an absent `cluster_topology` key leaves
the plan untouched; an empty present list synthesizes one default
element. -/
def expandKibanaClusterTopology (kibanaPlan : KibanaClusterPlan)
    (kibanaPlanMap : KibanaPlanMap) : KibanaClusterPlan :=
  match kibanaPlanMap.cluster_topology with
  | none => kibanaPlan
  | some inputTopology =>
    let clusterTopology := inputTopology.map expandKibanaTopologyElementFromMap
    let clusterTopology := if clusterTopology.length = 0 then
        [DefaultKibanaClusterTopologyElement]
      else clusterTopology
    { kibanaPlan with clusterTopology := clusterTopology }

/-- `expandKibanaClusterPlan`: an empty `plan` list leaves the default
plan; otherwise the head map's zone count and topology override it. -/
def expandKibanaClusterPlan (kibanaPlan : KibanaClusterPlan)
    (inputPlan : List KibanaPlanMap) : KibanaClusterPlan :=
  match inputPlan with
  | [] => kibanaPlan
  | kibanaPlanMap :: _ =>
    let kp := match kibanaPlanMap.zone_count with
      | some v => { kibanaPlan with zoneCount := v }
      | none => kibanaPlan
    expandKibanaClusterTopology kp kibanaPlanMap

/-- `expandKibanaCreateRequest`: no `kibana` block yields no request; an
empty block yields a default request; otherwise name and plan are read
from the block.  The primary-cluster reference is left empty here and
filled in by the caller that needs it. -/
def expandKibanaCreateRequest (kibanaList : List (Option KibanaMap)) :
    Option CreateKibanaRequest :=
  match kibanaList with
  | [] => none
  | none :: _ =>
    some { clusterName := "", elasticsearchClusterID := "", plan := DefaultKibanaClusterPlan }
  | some kibanaMap :: _ =>
    let kibanaName := kibanaMap.cluster_name.getD ""
    let kibanaPlan := match kibanaMap.plan with
      | some inputPlan => expandKibanaClusterPlan DefaultKibanaClusterPlan inputPlan
      | none => DefaultKibanaClusterPlan
    some { clusterName := kibanaName, elasticsearchClusterID := "", plan := kibanaPlan }

/-- Read result for a Kibana cluster (struct `KibanaClusterInfo`). -/
structure KibanaClusterInfo where
  clusterID : String
  clusterName : String
  healthy : Bool
  status : String
deriving DecidableEq, Repr

/-- One plan attempt of a Kibana cluster (struct `KibanaClusterPlanInfo`). -/
structure KibanaClusterPlanInfo where
  attemptEndTime : String
  attemptStartTime : String
  healthy : Bool
  plan : KibanaClusterPlan
  planAttemptID : String
  planAttemptLog : List ClusterPlanStepInfo
  planAttemptName : String
  planEndTime : String
deriving DecidableEq, Repr

/-- Plan records of a Kibana cluster (struct `KibanaClusterPlansInfo`). -/
structure KibanaClusterPlansInfo where
  current : KibanaClusterPlanInfo
  healthy : Bool
deriving DecidableEq, Repr

/-- Outcome of a Kibana plan-activity fetch. -/
inductive KibanaActivityFetch where
  | fetchFailure (s : String)
  | resp (statusCode : Nat) (decoded : Except String KibanaClusterPlansInfo)
deriving DecidableEq, Repr

/-- `validateKibanaClusterPlanActivity`: same logic as the elasticsearch
variant, over the Kibana plan records. -/
def validateKibanaClusterPlanActivity (fetch : KibanaActivityFetch) :
    Except ECEError Unit :=
  match fetch with
  | .fetchFailure s => .error (.clientError s)
  | .resp statusCode decoded =>
    if statusCode == 404 then
      .error .kibanaActivityNotFound
    else
      match decoded with
      | .error s => .error (.decodeError s)
      | .ok clusterPlansInfo =>
        if !clusterPlansInfo.current.healthy then
          .error (.kibanaPlanFailure
            (failedPlanStepLogMessages clusterPlansInfo.current.planAttemptLog))
        else
          .ok ()

/-- Outcome of one `GetElasticsearchCluster` read inside a polling loop: a
non-retryable failure (transport error, unexpected status, or an
undecodable 200 body), a 404, or a decoded 200 body. -/
inductive ReadOutcome where
  | failure (s : String)
  | notFound
  | ok (info : ElasticsearchClusterInfo)
deriving DecidableEq, Repr

/-- Outcome of one `GetKibanaCluster` read inside a polling loop. -/
inductive KibanaReadOutcome where
  | failure (s : String)
  | notFound
  | ok (info : KibanaClusterInfo)
deriving DecidableEq, Repr

/-- Result of a polling wait. -/
inductive WaitResult where
  | success
  | timeout
  | fatal (s : String)
deriving DecidableEq, Repr

/-- `WaitForElasticsearchClusterStatus`: poll the reads the control plane
produces within the timeout window; a 404 succeeds only when missing is
allowed (otherwise it retries), a matching status succeeds, a failure is
non-retryable, exhausting the window is the timeout.  Also returns how
many reads were issued. -/
def waitForElasticsearchClusterStatus (status : String) (allowMissing : Bool) :
    List ReadOutcome → WaitResult × Nat
  | [] => (.timeout, 0)
  | r :: rest =>
    match r with
    | .failure s => (.fatal s, 1)
    | .notFound =>
      if allowMissing then (.success, 1)
      else
        let p := waitForElasticsearchClusterStatus status allowMissing rest
        (p.1, p.2 + 1)
    | .ok info =>
      if info.status == status then (.success, 1)
      else
        let p := waitForElasticsearchClusterStatus status allowMissing rest
        (p.1, p.2 + 1)

/-- `WaitForKibanaClusterStatus`: the same loop over Kibana reads. -/
def waitForKibanaClusterStatus (status : String) (allowMissing : Bool) :
    List KibanaReadOutcome → WaitResult × Nat
  | [] => (.timeout, 0)
  | r :: rest =>
    match r with
    | .failure s => (.fatal s, 1)
    | .notFound =>
      if allowMissing then (.success, 1)
      else
        let p := waitForKibanaClusterStatus status allowMissing rest
        (p.1, p.2 + 1)
    | .ok info =>
      if info.status == status then (.success, 1)
      else
        let p := waitForKibanaClusterStatus status allowMissing rest
        (p.1, p.2 + 1)

/-- Whether a poll read reports the given status. -/
def readReportsStatus (r : ReadOutcome) (status : String) : Bool :=
  match r with
  | .ok info => info.status == status
  | _ => false

/-- Whether a poll read is a non-retryable failure. -/
def readIsFailure (r : ReadOutcome) : Bool :=
  match r with
  | .failure _ => true
  | _ => false

/-- API calls issued by the resource operations. -/
inductive APICall where
  | getCluster (id : String)
  | updateMetadata (id : String) (clusterName : String)
  | updateClusterPlan (id : String)
  | getActivity (id : String)
  | createKibana (req : CreateKibanaRequest)
  | updateKibanaMetadata (id : String) (clusterName : String)
  | updateKibanaPlan (id : String)
  | deleteKibana (id : String)
  | getKibana (id : String)
  | getKibanaActivity (id : String)
  | shutdownCluster (id : String)
  | deleteCluster (id : String)
deriving DecidableEq, Repr

/-- The terraform resource data threaded through the operations: desired
state (configuration and change flags) and persisted state (identity,
credentials, flattened plan). -/
structure ResourceData where
  id : String
  cluster_name : String
  plan : List PlanMap
  kibana : List (Option KibanaMap)
  kibana_cluster_id : String
  elasticsearch_username : String
  elasticsearch_password : String
  statePlan : Option FlatPlanMap
  hasChange_cluster_name : Bool
  hasChange_plan : Bool
  hasChange_kibana : Bool
deriving DecidableEq, Repr

/-- Control-plane behaviour during a Create. -/
structure CreateEnv where
  createResult : Except String ClusterCrudResponse
  esReads : List ReadOutcome
  esActivity : ElasticsearchActivityFetch
  kibanaReads : List KibanaReadOutcome
  kibanaActivity : KibanaActivityFetch
  finalRead : ReadOutcome
deriving DecidableEq, Repr

/-- Control-plane behaviour during an Update. -/
structure UpdateEnv where
  initialRead : Except String Nat
  metadataUpdate : Except String Unit
  planUpdate : Except String Unit
  esReads : List ReadOutcome
  esActivity : ElasticsearchActivityFetch
  kibanaCreate : Except String String
  kibanaMetadataUpdate : Except String Unit
  kibanaPlanUpdate : Except String Unit
  kibanaDelete : Except String Unit
  kibanaReads : List KibanaReadOutcome
  kibanaActivity : KibanaActivityFetch
  finalRead : ReadOutcome
deriving DecidableEq, Repr

/-- Control-plane behaviour during a client-level cluster delete. -/
structure DeleteEnv where
  shutdownResult : Except String Unit
  reads : List ReadOutcome
  deleteHTTP : Except String Nat
deriving DecidableEq, Repr

/-- `resourceElasticsearchClusterRead`: a 404 clears the identity and
succeeds; a 200 sets the name, flattens the current plan into the state
(an out-of-range instance index in the flattener is a runtime panic), and
records the first associated Kibana cluster's identity when present. -/
def resourceElasticsearchClusterRead (d : ResourceData) (readResult : ReadOutcome) :
    ResourceData × Except ECEError Unit :=
  match readResult with
  | .failure s => (d, .error (.clientError s))
  | .notFound => ({ d with id := "" }, .ok ())
  | .ok clusterInfo =>
    let d1 := { d with cluster_name := clusterInfo.clusterName }
    match flattenElasticsearchClusterPlan clusterInfo with
    | none => (d1, .error .panicIndexOutOfRange)
    | some flatPlan =>
      let d2 := { d1 with statePlan := some flatPlan }
      let d3 := match clusterInfo.associatedKibanaClusters with
        | [] => d2
        | k :: _ => { d2 with kibana_cluster_id := k.kibanaID }
      (d3, .ok ())

/-- `resourceElasticsearchClusterCreate`: expand the plan, submit the
create, wait for "started", validate the plan activity, only then set the
identity and credentials; when the response names a Kibana cluster, wait
for it and validate it too; finish with a read. -/
def resourceElasticsearchClusterCreate (d : ResourceData) (env : CreateEnv) :
    ResourceData × Except ECEError Unit :=
  match expandElasticsearchClusterPlan d.plan with
  | none => (d, .error .panicIndexOutOfRange)
  | some (.error e) => (d, .error (.configError e))
  | some (.ok _clusterPlan) =>
    match env.createResult with
    | .error s => (d, .error (.clientError s))
    | .ok crudResponse =>
      match (waitForElasticsearchClusterStatus "started" false env.esReads).1 with
      | .fatal s => (d, .error (.clientError s))
      | .timeout => (d, .error .waitTimeout)
      | .success =>
        match validateElasticsearchClusterPlanActivity env.esActivity with
        | .error e => (d, .error e)
        | .ok _ =>
          let d1 := { d with
            id := crudResponse.elasticsearchClusterID
            elasticsearch_username := crudResponse.credentials.username
            elasticsearch_password := crudResponse.credentials.password }
          if crudResponse.kibanaClusterID == "" then
            resourceElasticsearchClusterRead d1 env.finalRead
          else
            match (waitForKibanaClusterStatus "started" false env.kibanaReads).1 with
            | .fatal s => (d1, .error (.clientError s))
            | .timeout => (d1, .error .waitTimeout)
            | .success =>
              match validateKibanaClusterPlanActivity env.kibanaActivity with
              | .error e => (d1, .error e)
              | .ok _ =>
                let d2 := { d1 with kibana_cluster_id := crudResponse.kibanaClusterID }
                resourceElasticsearchClusterRead d2 env.finalRead

/-- Trailing block of `updateKibanaCluster` for a non-empty Kibana
identity: wait for "started", validate the plan activity, persist the
identity. -/
def kibanaPostSection (d : ResourceData) (kibanaClusterID : String)
    (trace : List APICall) (env : UpdateEnv) :
    ResourceData × List APICall × Except ECEError Unit :=
  let w := waitForKibanaClusterStatus "started" false env.kibanaReads
  let polls := List.replicate w.2 (APICall.getKibana kibanaClusterID)
  match w.1 with
  | .fatal s => (d, trace ++ polls, .error (.clientError s))
  | .timeout => (d, trace ++ polls, .error .waitTimeout)
  | .success =>
    let trace2 := trace ++ polls ++ [APICall.getKibanaActivity kibanaClusterID]
    match validateKibanaClusterPlanActivity env.kibanaActivity with
    | .error e => (d, trace2, .error e)
    | .ok _ => ({ d with kibana_cluster_id := kibanaClusterID }, trace2, .ok ())

/-- `updateKibanaCluster`: reconcile the companion from the persisted
identity and the desired state.  No persisted identity and a desired
block: create, referencing the primary.  Persisted identity and a desired
block: update metadata and plan.  Persisted identity and no desired
block: delete and clear the identity. -/
def updateKibanaCluster (clusterID : String) (d : ResourceData) (env : UpdateEnv) :
    ResourceData × List APICall × Except ECEError Unit :=
  let kibanaClusterID := d.kibana_cluster_id
  let kibanaRequest := expandKibanaCreateRequest d.kibana
  if kibanaClusterID == "" then
    match kibanaRequest with
    | some req =>
      let req := { req with elasticsearchClusterID := clusterID }
      match env.kibanaCreate with
      | .error s => (d, [APICall.createKibana req], .error (.clientError s))
      | .ok newID =>
        if newID == "" then (d, [APICall.createKibana req], .ok ())
        else kibanaPostSection d newID [APICall.createKibana req] env
    | none => (d, [], .ok ())
  else
    match kibanaRequest with
    | some req =>
      match env.kibanaMetadataUpdate with
      | .error s =>
        (d, [APICall.updateKibanaMetadata kibanaClusterID req.clusterName],
         .error (.clientError s))
      | .ok _ =>
        match env.kibanaPlanUpdate with
        | .error s =>
          (d, [APICall.updateKibanaMetadata kibanaClusterID req.clusterName,
               APICall.updateKibanaPlan kibanaClusterID],
           .error (.clientError s))
        | .ok _ =>
          kibanaPostSection d kibanaClusterID
            [APICall.updateKibanaMetadata kibanaClusterID req.clusterName,
             APICall.updateKibanaPlan kibanaClusterID] env
    | none =>
      match env.kibanaDelete with
      | .error s => (d, [APICall.deleteKibana kibanaClusterID], .error (.clientError s))
      | .ok _ =>
        ({ d with kibana_cluster_id := "" }, [APICall.deleteKibana kibanaClusterID], .ok ())

/-- Metadata section of the Update: rename when the name changed. -/
def updateMetadataSection (clusterID : String) (d : ResourceData) (env : UpdateEnv) :
    List APICall × Except ECEError Unit :=
  if d.hasChange_cluster_name then
    ([APICall.updateMetadata clusterID d.cluster_name],
     match env.metadataUpdate with
     | .error s => .error (.clientError s)
     | .ok _ => .ok ())
  else
    ([], .ok ())

/-- Plan section of the Update: when the plan changed, expand it, submit
it, wait for "started" after a fixed settle delay (a no-op here), and
validate the plan activity. -/
def updatePlanSection (clusterID : String) (d : ResourceData) (env : UpdateEnv) :
    List APICall × Except ECEError Unit :=
  if d.hasChange_plan then
    match expandElasticsearchClusterPlan d.plan with
    | none => ([], .error .panicIndexOutOfRange)
    | some (.error e) => ([], .error (.configError e))
    | some (.ok _clusterPlan) =>
      match env.planUpdate with
      | .error s => ([APICall.updateClusterPlan clusterID], .error (.clientError s))
      | .ok _ =>
        let w := waitForElasticsearchClusterStatus "started" false env.esReads
        let polls := List.replicate w.2 (APICall.getCluster clusterID)
        match w.1 with
        | .fatal s => (APICall.updateClusterPlan clusterID :: polls, .error (.clientError s))
        | .timeout => (APICall.updateClusterPlan clusterID :: polls, .error .waitTimeout)
        | .success =>
          let trace := APICall.updateClusterPlan clusterID ::
            (polls ++ [APICall.getActivity clusterID])
          match validateElasticsearchClusterPlanActivity env.esActivity with
          | .error e => (trace, .error e)
          | .ok _ => (trace, .ok ())
  else
    ([], .ok ())

/-- `resourceElasticsearchClusterUpdate`: read the cluster first (a 404
fails the update immediately), then run the metadata, plan and Kibana
sections in order, and finish with a read. -/
def resourceElasticsearchClusterUpdate (d : ResourceData) (env : UpdateEnv) :
    ResourceData × List APICall × Except ECEError Unit :=
  let clusterID := d.id
  let trace0 := [APICall.getCluster clusterID]
  match env.initialRead with
  | .error s => (d, trace0, .error (.clientError s))
  | .ok statusCode =>
    if statusCode == 404 then
      (d, trace0, .error .notFoundForUpdate)
    else
      let mSec := updateMetadataSection clusterID d env
      match mSec.2 with
      | .error e => (d, trace0 ++ mSec.1, .error e)
      | .ok _ =>
        let pSec := updatePlanSection clusterID d env
        match pSec.2 with
        | .error e => (d, trace0 ++ mSec.1 ++ pSec.1, .error e)
        | .ok _ =>
          if d.hasChange_kibana then
            let kRes := updateKibanaCluster clusterID d env
            match kRes.2.2 with
            | .error e => (kRes.1, trace0 ++ mSec.1 ++ pSec.1 ++ kRes.2.1, .error e)
            | .ok _ =>
              let rRes := resourceElasticsearchClusterRead kRes.1 env.finalRead
              (rRes.1,
               trace0 ++ mSec.1 ++ pSec.1 ++ kRes.2.1 ++ [APICall.getCluster kRes.1.id],
               rRes.2)
          else
            let rRes := resourceElasticsearchClusterRead d env.finalRead
            (rRes.1, trace0 ++ mSec.1 ++ pSec.1 ++ [APICall.getCluster d.id], rRes.2)

/-- `DeleteElasticsearchCluster` (client): send the shutdown; on its
success, wait for "stopped" allowing a 404 — the wait's outcome is
ignored — then send the DELETE, which must return 200. -/
def DeleteElasticsearchCluster (id : String) (env : DeleteEnv) :
    List APICall × Except ECEError Unit :=
  let trace0 := [APICall.shutdownCluster id]
  match env.shutdownResult with
  | .error s => (trace0, .error (.clientError s))
  | .ok _ =>
    let w := waitForElasticsearchClusterStatus "stopped" true env.reads
    let trace1 := trace0 ++ List.replicate w.2 (APICall.getCluster id)
    let trace2 := trace1 ++ [APICall.deleteCluster id]
    let res : Except ECEError Unit := match env.deleteHTTP with
      | .error s => .error (.clientError s)
      | .ok statusCode =>
        if statusCode != 200 then
          .error (.clientError "elasticsearch cluster could not be deleted")
        else
          .ok ()
    (trace2, res)
/-- A healthy plan-activity response. -/
def healthyActivityEx : ElasticsearchActivityFetch :=
  .resp 200 (.ok { current := planInfoOf emptyElasticsearchClusterPlan
                   healthy := true
                   history := []
                   pending := planInfoOf emptyElasticsearchClusterPlan })

/-- A healthy Kibana plan-activity response. -/
def kibanaHealthyActivityEx : KibanaActivityFetch :=
  .resp 200 (.ok { current := { attemptEndTime := ""
                                attemptStartTime := ""
                                healthy := true
                                plan := DefaultKibanaClusterPlan
                                planAttemptID := ""
                                planAttemptLog := []
                                planAttemptName := ""
                                planEndTime := "" }
                   healthy := true })

/-- A cluster read whose status is still "pending". -/
def pendingInfoEx : ElasticsearchClusterInfo :=
  { clusterID := "c-pending"
    clusterName := ""
    healthy := false
    planInfo := { current := planInfoOf emptyElasticsearchClusterPlan
                  healthy := true
                  history := []
                  pending := planInfoOf emptyElasticsearchClusterPlan }
    associatedKibanaClusters := []
    status := "pending"
    topology := { healthy := true, instances := [] } }

/-- A resource-data value with a pending plan change. -/
def resourceDataEx : ResourceData :=
  { id := "es-1"
    cluster_name := "Test Cluster"
    plan := [{ cluster_topology := [], elasticsearch := [{ version := "7.2.0" }] }]
    kibana := []
    kibana_cluster_id := ""
    elasticsearch_username := ""
    elasticsearch_password := ""
    statePlan := none
    hasChange_cluster_name := false
    hasChange_plan := true
    hasChange_kibana := false }

/-- An update environment whose status polls only ever report "pending". -/
def updateEnvEx : UpdateEnv :=
  { initialRead := .ok 200
    metadataUpdate := .ok ()
    planUpdate := .ok ()
    esReads := [.ok pendingInfoEx]
    esActivity := healthyActivityEx
    kibanaCreate := .ok "kib-new"
    kibanaMetadataUpdate := .ok ()
    kibanaPlanUpdate := .ok ()
    kibanaDelete := .ok ()
    kibanaReads := []
    kibanaActivity := kibanaHealthyActivityEx
    finalRead := .notFound }

/-- A create environment whose status polls only ever report "pending". -/
def createEnvEx : CreateEnv :=
  { createResult := .ok { credentials := { password := "p", username := "u" }
                          elasticsearchClusterID := "es-1"
                          kibanaClusterID := "" }
    esReads := [.ok pendingInfoEx]
    esActivity := healthyActivityEx
    kibanaReads := []
    kibanaActivity := kibanaHealthyActivityEx
    finalRead := .notFound }

/-- An update environment whose initial read returns 404. -/
def notFoundUpdateEnvEx : UpdateEnv :=
  { updateEnvEx with initialRead := .ok 404 }

/-- Resource data with a persisted Kibana identity but no desired Kibana
block. -/
def kibanaDeleteDataEx : ResourceData :=
  { resourceDataEx with kibana := [], kibana_cluster_id := "kib-1", hasChange_kibana := true }

/-- Resource data with a desired Kibana block but no persisted Kibana
identity. -/
def kibanaCreateDataEx : ResourceData :=
  { resourceDataEx with
      kibana := [some { cluster_name := some "kib", plan := none }]
      kibana_cluster_id := ""
      hasChange_kibana := true }

/-- Diagnostic messages of the failing step. -/
def stepLogMsg1 : ClusterPlanStepLogMessageInfo :=
  { deltaMS := 10, message := "allocator capacity exhausted", stage := "80", timestamp := "t1" }

/-- Second diagnostic message of the failing step. -/
def stepLogMsg2 : ClusterPlanStepLogMessageInfo :=
  { deltaMS := 20, message := "retry budget exceeded", stage := "80", timestamp := "t2" }

/-- A message carried by a successful step (must not be reported). -/
def stepLogMsgOk : ClusterPlanStepLogMessageInfo :=
  { deltaMS := 5, message := "step completed", stage := "30", timestamp := "t0" }

/-- A successful step preceding the failure. -/
def planStepOk1 : ClusterPlanStepInfo :=
  { completed := "", durationMS := 1, infoLog := [stepLogMsgOk], stage := "30"
    started := "", status := "success", stepID := "step-1" }

/-- The failing step with two diagnostic messages. -/
def planStepErr : ClusterPlanStepInfo :=
  { completed := "", durationMS := 2, infoLog := [stepLogMsg1, stepLogMsg2], stage := "80"
    started := "", status := "error", stepID := "step-2" }

/-- A successful step following the failure. -/
def planStepOk2 : ClusterPlanStepInfo :=
  { completed := "", durationMS := 3, infoLog := [], stage := "90"
    started := "", status := "success", stepID := "step-3" }

/-- An unhealthy plan-activity record whose attempt log has exactly one
non-success step. -/
def failedActivityInfoEx : ElasticsearchClusterPlansInfo :=
  { current := { attemptEndTime := ""
                 attemptStartTime := ""
                 healthy := false
                 plan := emptyElasticsearchClusterPlan
                 planAttemptID := ""
                 planAttemptLog := [planStepOk1, planStepErr, planStepOk2]
                 planAttemptName := ""
                 planEndTime := "" }
    healthy := false
    history := []
    pending := planInfoOf emptyElasticsearchClusterPlan }

/-- A delete environment whose shutdown wait times out (the only read
still reports "pending"). -/
def deleteEnvTimeoutEx : DeleteEnv :=
  { shutdownResult := .ok (), reads := [.ok pendingInfoEx], deleteHTTP := .ok 200 }

/-- A delete environment whose first post-shutdown read already returns
404. -/
def deleteEnvGoneEx : DeleteEnv :=
  { shutdownResult := .ok (), reads := [.notFound], deleteHTTP := .ok 200 }

/-- C6: expanding a plan map whose `cluster_topology` list is empty yields
exactly one element equal to the default topology element: memory 1024,
one node per zone, one zone, roles data/ingest/master true and ml false. -/
theorem expandTopology_empty_yields_default (elasticsearch : List ElasticsearchMap) :
    expandElasticsearchClusterTopology
        { cluster_topology := [], elasticsearch := elasticsearch }
      = [DefaultElasticsearchClusterTopologyElement]
    ∧ DefaultElasticsearchClusterTopologyElement
      = { memoryPerNode := 1024
          nodeCountPerZone := 1
          nodeType := { data := true, ingest := true, master := true, ml := false }
          zoneCount := 1 } := by
  exact ⟨rfl, rfl⟩

/-- Sparse-override merge of role flags over the default node type,
computed field by field: a present boolean overrides, an absent one keeps
the default. -/
theorem expandNodeType_default_fieldwise (m : NodeTypeOptMap) :
    expandElasticsearchNodeTypeFromMap DefaultElasticsearchNodeType m
      = { data := m.data.getD true
          ingest := m.ingest.getD true
          master := m.master.getD true
          ml := m.ml.getD false } := by
  obtain ⟨d, i, ma, l⟩ := m
  cases d <;> cases i <;> cases ma <;> cases l <;> rfl

/-- C7: role-flag expansion is a sparse-override merge: absent booleans keep
the defaults (data/ingest/master true, ml false) and present booleans
override; a map containing only `ml = true` yields all four roles true; and
a topology element without a `node_type` sub-tree gets the full default
role set. -/
theorem nodeType_sparse_override_merge :
    (∀ m : NodeTypeOptMap,
      expandElasticsearchNodeTypeFromMap DefaultElasticsearchNodeType m
        = { data := m.data.getD true
            ingest := m.ingest.getD true
            master := m.master.getD true
            ml := m.ml.getD false })
    ∧ expandElasticsearchNodeTypeFromMap DefaultElasticsearchNodeType
        { data := none, ingest := none, master := none, ml := some true }
      = { data := true, ingest := true, master := true, ml := true }
    ∧ (∀ (mem ncz zc : Option Int),
      (expandTopologyElementFromMap
        { memory_per_node := mem, node_count_per_zone := ncz
          node_type := none, zone_count := zc }).nodeType
        = DefaultElasticsearchNodeType) := by
  refine ⟨expandNodeType_default_fieldwise, rfl, ?_⟩
  intro mem ncz zc
  cases mem <;> cases ncz <;> cases zc <;> rfl

/-- Zone-count fallback of the flattening loop, per index. -/
theorem flattenTopologyAux_zone_count (clusterInfo : ElasticsearchClusterInfo)
    (dz : Int) :
    ∀ (ts : List ElasticsearchClusterTopologyElement) (i0 : Nat)
      (out : List FlatTopologyElement) (j : Nat)
      (t : ElasticsearchClusterTopologyElement) (fe : FlatTopologyElement),
      flattenElasticsearchClusterTopologyAux clusterInfo dz i0 ts = some out →
      ts[j]? = some t → out[j]? = some fe →
      fe.zone_count = if t.zoneCount > 0 then t.zoneCount else dz := by
  intro ts
  induction ts with
  | nil =>
    intro i0 out j t fe _ ht
    simp at ht
  | cons hd tl ih =>
    intro i0 out j t fe h ht hout
    simp only [flattenElasticsearchClusterTopologyAux] at h
    cases hnt : flattenElasticsearchNodeType clusterInfo i0 with
    | none => rw [hnt] at h; exact absurd h (by simp)
    | some nt =>
      rw [hnt] at h
      cases haux : flattenElasticsearchClusterTopologyAux clusterInfo dz (i0 + 1) tl with
      | none => rw [haux] at h; exact absurd h (by simp)
      | some restFlat =>
        rw [haux] at h
        simp only [Option.some.injEq] at h
        subst h
        cases j with
        | zero =>
          simp only [List.getElem?_cons_zero, Option.some.injEq] at ht hout
          subst ht
          subst hout
          rfl
        | succ j =>
          simp only [List.getElem?_cons_succ] at ht hout
          exact ih (i0 + 1) restFlat j t fe haux ht hout

/-- C8: a flattened topology element's zone count is the element's own zone
count when positive, and the plan-level zone count otherwise. -/
theorem flattenTopology_zone_count_fallback (clusterInfo : ElasticsearchClusterInfo)
    (clusterPlan : ElasticsearchClusterPlan) (out : List FlatTopologyElement)
    (j : Nat) (t : ElasticsearchClusterTopologyElement) (fe : FlatTopologyElement)
    (h : flattenElasticsearchClusterTopology clusterInfo clusterPlan = some out)
    (ht : clusterPlan.clusterTopology[j]? = some t)
    (hout : out[j]? = some fe) :
    fe.zone_count = if t.zoneCount > 0 then t.zoneCount else clusterPlan.zoneCount :=
  flattenTopologyAux_zone_count clusterInfo clusterPlan.zoneCount
    clusterPlan.clusterTopology 0 out j t fe h ht hout

/-- Witness for C8: flattening an element with zone count 0 under a
plan-level zone count of 3 yields zone count 3. -/
theorem flattenTopology_zone_count_fallback_witness :
    (zoneFallbackFlatEx.zone_count = if (0 : Int) > 0 then (0 : Int) else 3)
    ∧ zoneFallbackFlatEx.zone_count = 3 :=
  ⟨flattenTopology_zone_count_fallback (roundTripClusterInfo zoneFallbackPlanEx)
      zoneFallbackPlanEx [zoneFallbackFlatEx] 0
      { memoryPerNode := 2048
        nodeCountPerZone := 1
        nodeType := DefaultElasticsearchNodeType
        zoneCount := 0 }
      zoneFallbackFlatEx (by decide) (by decide) (by decide),
    rfl⟩

/-- Counterexample to C2: on a cluster-info whose instance list is
non-empty (one instance) but shorter than the plan's topology list (two
elements), flattening the topology fails — the Go code indexes the
instance list out of range, modelled as `none` — instead of producing an
all-false role set for the missing index. -/
theorem flattenTopology_short_instances_counterexample :
    0 < shortInstancesInfoEx.topology.instances.length
    ∧ shortInstancesInfoEx.topology.instances.length
        < shortInstancesInfoEx.planInfo.current.plan.clusterTopology.length
    ∧ flattenElasticsearchClusterTopology shortInstancesInfoEx
        shortInstancesInfoEx.planInfo.current.plan = none :=
  ⟨by decide, by decide, by decide⟩

/-- The flattening loop fails as soon as the running index leaves the
non-empty instance list. -/
theorem flattenTopologyAux_none_of_overrun (clusterInfo : ElasticsearchClusterInfo)
    (dz : Int) :
    ∀ (ts : List ElasticsearchClusterTopologyElement) (i0 : Nat),
      0 < clusterInfo.topology.instances.length →
      i0 ≤ clusterInfo.topology.instances.length →
      clusterInfo.topology.instances.length < i0 + ts.length →
      flattenElasticsearchClusterTopologyAux clusterInfo dz i0 ts = none := by
  intro ts
  induction ts with
  | nil =>
    intro i0 _ hle hlt
    exfalso
    simp only [List.length_nil, Nat.add_zero] at hlt
    omega
  | cons hd tl ih =>
    intro i0 hpos hle hlt
    by_cases hi : i0 < clusterInfo.topology.instances.length
    · have hget : clusterInfo.topology.instances[i0]? =
          some (clusterInfo.topology.instances.get (Fin.mk i0 hi)) :=
        List.getElem?_eq_getElem hi
      have hrec : flattenElasticsearchClusterTopologyAux clusterInfo dz (i0 + 1) tl
          = none := by
        apply ih (i0 + 1) hpos hi
        simp only [List.length_cons] at hlt
        omega
      simp only [flattenElasticsearchClusterTopologyAux, flattenElasticsearchNodeType,
        if_pos hpos, hget, hrec]
    · have hnone : clusterInfo.topology.instances[i0]? = none := by
        apply List.getElem?_eq_none
        omega
      simp only [flattenElasticsearchClusterTopologyAux, flattenElasticsearchNodeType,
        if_pos hpos, hnone]

/-- C2 amended: for every cluster-info whose topology instance list is
non-empty but shorter than the plan's cluster-topology list, flattening
the topology fails (the instance list is indexed out of range at the first
topology position with no corresponding instance) rather than producing a
role set for the missing indices. -/
theorem flattenTopology_short_instances_fails (clusterInfo : ElasticsearchClusterInfo)
    (clusterPlan : ElasticsearchClusterPlan)
    (hpos : 0 < clusterInfo.topology.instances.length)
    (hshort : clusterInfo.topology.instances.length
      < clusterPlan.clusterTopology.length) :
    flattenElasticsearchClusterTopology clusterInfo clusterPlan = none :=
  flattenTopologyAux_none_of_overrun clusterInfo clusterPlan.zoneCount
    clusterPlan.clusterTopology 0 hpos (Nat.zero_le _) (by omega)

/-- Witness for the amended C2, on a plan with three topology elements and
two live instances. -/
theorem flattenTopology_short_instances_fails_witness :
    flattenElasticsearchClusterTopology shortInstancesInfoEx2
      shortInstancesInfoEx2.planInfo.current.plan = none :=
  flattenTopology_short_instances_fails shortInstancesInfoEx2
    shortInstancesInfoEx2.planInfo.current.plan (by decide) (by decide)

/-- Rebuilding role flags from the canonical service-role list recovers
the node type: expanding the roles reported as true over an all-false base
is the identity on node types. -/
theorem nodeType_roles_roundtrip (nt : ElasticsearchNodeType) :
    expandElasticsearchNodeTypeFromMap
      { data := false, ingest := false, master := false, ml := false }
      (rolesToNodeTypeOptMap (serviceRolesOfNodeType nt)) = nt := by
  obtain ⟨d, i, ma, l⟩ := nt
  cases d <;> cases i <;> cases ma <;> cases l <;> decide

/-- On an instance list index-aligned with the topology suffix being
flattened, the flattening loop succeeds and recovers each element's role
flags, applying the zone-count fallback. -/
theorem flattenTopologyAux_aligned (clusterInfo : ElasticsearchClusterInfo)
    (dz : Int) :
    ∀ (ts : List ElasticsearchClusterTopologyElement) (i0 : Nat),
      0 < clusterInfo.topology.instances.length →
      (∀ j : Nat, clusterInfo.topology.instances[i0 + j]? =
        (ts[j]?).map (fun t =>
          ({ serviceRoles := some (serviceRolesOfNodeType t.nodeType) }
            : ClusterInstanceInfo))) →
      flattenElasticsearchClusterTopologyAux clusterInfo dz i0 ts =
        some (ts.map (fun t =>
          { memory_per_node := t.memoryPerNode
            node_count_per_zone := t.nodeCountPerZone
            node_type := FlatNodeType.roles t.nodeType
            zone_count := if t.zoneCount > 0 then t.zoneCount else dz })) := by
  intro ts
  induction ts with
  | nil =>
    intro i0 _ _
    rfl
  | cons hd tl ih =>
    intro i0 hpos haligned
    have h0 := haligned 0
    simp only [Nat.add_zero, List.getElem?_cons_zero, Option.map_some'] at h0
    have hnt : flattenElasticsearchNodeType clusterInfo i0
        = some (FlatNodeType.roles hd.nodeType) := by
      simp only [flattenElasticsearchNodeType, if_pos hpos, h0,
        nodeType_roles_roundtrip]
    have hrec := ih (i0 + 1) hpos (fun j => by
      have hj := haligned (j + 1)
      rw [show i0 + (j + 1) = i0 + 1 + j by omega] at hj
      simpa only [List.getElem?_cons_succ] using hj)
    simp only [flattenElasticsearchClusterTopologyAux, hnt, hrec, List.map_cons]

/-- A fully-specified topology element expands and re-flattens to its own
reading in the flattened tree shape (for any fallback zone count, since
the element's zone count is positive). -/
theorem expandTopologyElement_full_flat (em : TopologyElementMap)
    (h : topologyElementMapFull em = true) (dz : Int) :
    ({ memory_per_node := (expandTopologyElementFromMap em).memoryPerNode
       node_count_per_zone := (expandTopologyElementFromMap em).nodeCountPerZone
       node_type := FlatNodeType.roles (expandTopologyElementFromMap em).nodeType
       zone_count := if (expandTopologyElementFromMap em).zoneCount > 0
         then (expandTopologyElementFromMap em).zoneCount else dz }
      : FlatTopologyElement)
      = topologyElementMapAsFlat em := by
  obtain ⟨omem, oncz, ont, ozc⟩ := em
  simp only [topologyElementMapFull, Bool.and_eq_true] at h
  obtain ⟨⟨⟨hmem, hncz⟩, hnt⟩, hzc⟩ := h
  obtain ⟨mem, rfl⟩ := Option.isSome_iff_exists.mp hmem
  obtain ⟨ncz, rfl⟩ := Option.isSome_iff_exists.mp hncz
  match ont, hnt with
  | some [ntm], hnt =>
    match ozc, hzc with
    | some zc, hzc =>
      have hzcpos : (0 : Int) < zc := by
        simpa using hzc
      obtain ⟨od, oi, om, ol⟩ := ntm
      simp only [nodeTypeOptMapFull, Bool.and_eq_true] at hnt
      obtain ⟨⟨⟨hd, hi⟩, hm⟩, hl⟩ := hnt
      obtain ⟨d, rfl⟩ := Option.isSome_iff_exists.mp hd
      obtain ⟨i, rfl⟩ := Option.isSome_iff_exists.mp hi
      obtain ⟨m, rfl⟩ := Option.isSome_iff_exists.mp hm
      obtain ⟨l, rfl⟩ := Option.isSome_iff_exists.mp hl
      simp only [expandTopologyElementFromMap, topologyElementMapAsFlat,
        expandElasticsearchNodeTypeFromMap, Option.getD_some,
        if_pos hzcpos]


/-- Flattening the round-trip response of a plan with a non-empty topology
recovers each element's fields and role flags. -/
theorem flatten_roundTripInfo (plan : ElasticsearchClusterPlan)
    (hne : plan.clusterTopology ≠ []) :
    flattenElasticsearchClusterPlan (roundTripClusterInfo plan) =
      some ({ cluster_topology := plan.clusterTopology.map (fun t =>
                ({ memory_per_node := t.memoryPerNode
                   node_count_per_zone := t.nodeCountPerZone
                   node_type := FlatNodeType.roles t.nodeType
                   zone_count := if t.zoneCount > (0 : Int) then t.zoneCount
                     else plan.zoneCount } : FlatTopologyElement))
              elasticsearch := [{ version := plan.elasticsearch.version }] }
            : FlatPlanMap) := by
  have hpos : 0 < (roundTripClusterInfo plan).topology.instances.length := by
    simp only [roundTripClusterInfo, List.length_map]
    exact List.length_pos.mpr hne
  have haligned : ∀ j : Nat,
      (roundTripClusterInfo plan).topology.instances[0 + j]? =
        ((plan.clusterTopology)[j]?).map (fun t =>
          ({ serviceRoles := some (serviceRolesOfNodeType t.nodeType) }
            : ClusterInstanceInfo)) := by
    intro j
    simp only [roundTripClusterInfo, Nat.zero_add, List.getElem?_map]
  have haux := flattenTopologyAux_aligned (roundTripClusterInfo plan)
    plan.zoneCount plan.clusterTopology 0 hpos haligned
  simp only [flattenElasticsearchClusterPlan, flattenElasticsearchClusterTopology]
  rw [show (roundTripClusterInfo plan).planInfo.current.plan = plan from rfl]
  rw [haux]
  rfl

/-- C1: round trip — expanding a fully-specified desired-state tree with
`expandElasticsearchClusterPlan` and flattening a response whose current
plan is the expanded plan, with the instance list index-aligned to the
topology and each instance reporting exactly the role names submitted as
true, reproduces the input tree (read in the flattened shape). -/
theorem expand_flatten_roundtrip (pm : PlanMap) (hfull : planMapFull pm = true) :
    ∃ plan : ElasticsearchClusterPlan,
      expandElasticsearchClusterPlan [pm] = some (Except.ok plan)
      ∧ flattenElasticsearchClusterPlan (roundTripClusterInfo plan)
          = some (planMapAsFlatTree pm) := by
  simp only [planMapFull, Bool.and_eq_true, Bool.not_eq_true', beq_iff_eq,
    List.all_eq_true] at hfull
  obtain ⟨⟨hne, hall⟩, hes⟩ := hfull
  obtain ⟨esm, hesm⟩ : ∃ esm, pm.elasticsearch = [esm] := by
    match hmatch : pm.elasticsearch, hes with
    | [esm], _ => exact ⟨esm, rfl⟩
  have htne : pm.cluster_topology ≠ [] := by
    simpa [List.isEmpty_iff] using hne
  have htlen : (pm.cluster_topology.map expandTopologyElementFromMap).length ≠ 0 := by
    simpa [List.length_eq_zero] using htne
  refine ⟨{ clusterTopology := pm.cluster_topology.map expandTopologyElementFromMap
            elasticsearch := { version := esm.version }
            zoneCount := 0 }, ?_, ?_⟩
  · simp only [expandElasticsearchClusterPlan, expandElasticsearchConfiguration,
      expandElasticsearchClusterTopology, hesm, if_neg htlen]
  · rw [flatten_roundTripInfo _ (by simpa [List.map_eq_nil_iff] using htne)]
    simp only [planMapAsFlatTree, hesm, List.map_cons, List.map_nil,
      List.map_map, Option.some.injEq, FlatPlanMap.mk.injEq]
    refine ⟨?_, trivial⟩
    apply List.map_congr_left
    intro em hmem
    exact expandTopologyElement_full_flat em (hall em hmem) _

/-- Witness for C1 at a concrete fully-specified tree. -/
theorem expand_flatten_roundtrip_witness :
    ∃ plan : ElasticsearchClusterPlan,
      expandElasticsearchClusterPlan [roundTripPlanMapEx] = some (Except.ok plan)
      ∧ flattenElasticsearchClusterPlan (roundTripClusterInfo plan)
          = some (planMapAsFlatTree roundTripPlanMapEx) :=
  expand_flatten_roundtrip roundTripPlanMapEx (by decide)

/-- Collected failure messages distribute over list concatenation. -/
theorem failedPlanStepLogMessages_append (a b : List ClusterPlanStepInfo) :
    failedPlanStepLogMessages (a ++ b)
      = failedPlanStepLogMessages a ++ failedPlanStepLogMessages b := by
  induction a with
  | nil => rfl
  | cons s t ih =>
    simp only [List.cons_append, failedPlanStepLogMessages, List.append_eq, ih,
      List.append_assoc]

/-- Steps with status "success" contribute no failure messages. -/
theorem failedPlanStepLogMessages_all_success (l : List ClusterPlanStepInfo)
    (h : l.all (fun s => s.status == "success") = true) :
    failedPlanStepLogMessages l = [] := by
  induction l with
  | nil => rfl
  | cons s t ih =>
    simp only [List.all_cons, Bool.and_eq_true] at h
    obtain ⟨hs, ht⟩ := h
    have hss : s.status = "success" := by simpa using hs
    simp [failedPlanStepLogMessages, hss, ih ht]

/-- C3: on an unhealthy plan-activity response whose attempt log has
exactly one step with status "error", carrying two info-log messages, with
every other step "success", validation fails with exactly those two
messages and none from the successful steps. -/
theorem validate_unhealthy_collects_error_step_messages
    (pre post : List ClusterPlanStepInfo) (step : ClusterPlanStepInfo)
    (m1 m2 : ClusterPlanStepLogMessageInfo) (info : ElasticsearchClusterPlansInfo)
    (hhealthy : info.current.healthy = false)
    (hlog : info.current.planAttemptLog = pre ++ step :: post)
    (hstatus : step.status = "error")
    (hmsgs : step.infoLog = [m1, m2])
    (hpre : pre.all (fun s => s.status == "success") = true)
    (hpost : post.all (fun s => s.status == "success") = true) :
    validateElasticsearchClusterPlanActivity
        (.resp 200 (.ok info))
      = .error (.planFailure [m1, m2]) := by
  have hmsgsEq : failedPlanStepLogMessages (pre ++ step :: post) = [m1, m2] := by
    rw [failedPlanStepLogMessages_append,
      failedPlanStepLogMessages_all_success pre hpre]
    simp [failedPlanStepLogMessages, hstatus, hmsgs,
      failedPlanStepLogMessages_all_success post hpost]
  simp [validateElasticsearchClusterPlanActivity, hhealthy, hlog, hmsgsEq]

/-- Witness for C3 at a concrete three-step attempt log. -/
theorem validate_unhealthy_collects_error_step_messages_witness :
    validateElasticsearchClusterPlanActivity
        (.resp 200 (.ok failedActivityInfoEx))
      = .error (.planFailure [stepLogMsg1, stepLogMsg2]) :=
  validate_unhealthy_collects_error_step_messages
    [planStepOk1] [planStepOk2] planStepErr stepLogMsg1 stepLogMsg2
    failedActivityInfoEx rfl rfl rfl rfl (by decide) (by decide)

/-- If no poll read reports the target status, the strict wait (404 not
allowed) cannot succeed. -/
theorem wait_no_success (status : String) (reads : List ReadOutcome)
    (h : reads.all (fun r => !readReportsStatus r status) = true) :
    (waitForElasticsearchClusterStatus status false reads).1 ≠ .success := by
  induction reads with
  | nil => simp [waitForElasticsearchClusterStatus]
  | cons r rest ih =>
    simp only [List.all_cons, Bool.and_eq_true] at h
    obtain ⟨hr, hrest⟩ := h
    cases r with
    | failure s => simp [waitForElasticsearchClusterStatus]
    | notFound =>
      simpa [waitForElasticsearchClusterStatus] using ih hrest
    | ok info =>
      have hst : (info.status == status) = false := by
        simpa [readReportsStatus] using hr
      simpa [waitForElasticsearchClusterStatus, hst] using ih hrest

/-- If no poll read reports the target status and none fails, the strict
wait exhausts the window and times out. -/
theorem wait_timeout (status : String) (reads : List ReadOutcome)
    (h : reads.all (fun r => !readReportsStatus r status && !readIsFailure r) = true) :
    (waitForElasticsearchClusterStatus status false reads).1 = .timeout := by
  induction reads with
  | nil => rfl
  | cons r rest ih =>
    simp only [List.all_cons, Bool.and_eq_true] at h
    obtain ⟨⟨hr, hf⟩, hrest⟩ := h
    cases r with
    | failure s => simp [readIsFailure] at hf
    | notFound =>
      simpa [waitForElasticsearchClusterStatus] using ih hrest
    | ok info =>
      have hst : (info.status == status) = false := by
        simpa [readReportsStatus] using hr
      simpa [waitForElasticsearchClusterStatus, hst] using ih hrest

/-- C4: when no status read reports "started" within the timeout window,
Create returns an error with the resource data (in particular the
identity) unchanged, an Update with a plan change returns an error, and a
window of reads that are neither "started" nor failures yields precisely
the wait loop's timeout. -/
theorem no_started_never_ready :
    (∀ (d : ResourceData) (env : CreateEnv),
      env.esReads.all (fun r => !readReportsStatus r "started") = true →
      ∃ e, resourceElasticsearchClusterCreate d env = (d, .error e))
    ∧ (∀ (d : ResourceData) (env : UpdateEnv),
      d.hasChange_plan = true →
      env.esReads.all (fun r => !readReportsStatus r "started") = true →
      ∃ e, (resourceElasticsearchClusterUpdate d env).2.2 = .error e)
    ∧ (∀ reads : List ReadOutcome,
      reads.all (fun r => !readReportsStatus r "started" && !readIsFailure r) = true →
      (waitForElasticsearchClusterStatus "started" false reads).1 = .timeout) := by
  refine ⟨?_, ?_, fun reads h => wait_timeout "started" reads h⟩
  · intro d env hall
    have hns := wait_no_success "started" env.esReads hall
    cases hexp : expandElasticsearchClusterPlan d.plan with
    | none =>
      exact ⟨.panicIndexOutOfRange, by simp [resourceElasticsearchClusterCreate, hexp]⟩
    | some r =>
      cases r with
      | error e =>
        exact ⟨.configError e, by simp [resourceElasticsearchClusterCreate, hexp]⟩
      | ok clusterPlan =>
        cases hcr : env.createResult with
        | error s =>
          exact ⟨.clientError s, by simp [resourceElasticsearchClusterCreate, hexp, hcr]⟩
        | ok crud =>
          cases hw : (waitForElasticsearchClusterStatus "started" false env.esReads).1 with
          | success => exact absurd hw hns
          | timeout =>
            exact ⟨.waitTimeout, by simp [resourceElasticsearchClusterCreate, hexp, hcr, hw]⟩
          | fatal s =>
            exact ⟨.clientError s, by simp [resourceElasticsearchClusterCreate, hexp, hcr, hw]⟩
  · intro d env hplan hall
    have hns := wait_no_success "started" env.esReads hall
    have hpsec : ∃ e, (updatePlanSection d.id d env).2 = .error e := by
      cases hexp : expandElasticsearchClusterPlan d.plan with
      | none =>
        exact ⟨.panicIndexOutOfRange, by simp [updatePlanSection, hplan, hexp]⟩
      | some r =>
        cases r with
        | error e =>
          exact ⟨.configError e, by simp [updatePlanSection, hplan, hexp]⟩
        | ok clusterPlan =>
          cases hpu : env.planUpdate with
          | error s =>
            exact ⟨.clientError s, by simp [updatePlanSection, hplan, hexp, hpu]⟩
          | ok u =>
            cases hw : (waitForElasticsearchClusterStatus "started" false env.esReads).1 with
            | success => exact absurd hw hns
            | timeout =>
              exact ⟨.waitTimeout, by simp [updatePlanSection, hplan, hexp, hpu, hw]⟩
            | fatal s =>
              exact ⟨.clientError s, by simp [updatePlanSection, hplan, hexp, hpu, hw]⟩
    obtain ⟨e, he⟩ := hpsec
    cases hir : env.initialRead with
    | error s =>
      exact ⟨.clientError s, by simp [resourceElasticsearchClusterUpdate, hir]⟩
    | ok code =>
      cases hcode : (code == 404) with
      | true =>
        exact ⟨.notFoundForUpdate, by simp [resourceElasticsearchClusterUpdate, hir, hcode]⟩
      | false =>
        cases hms : (updateMetadataSection d.id d env).2 with
        | error em =>
          exact ⟨em, by simp [resourceElasticsearchClusterUpdate, hir, hcode, hms]⟩
        | ok u =>
          exact ⟨e, by simp [resourceElasticsearchClusterUpdate, hir, hcode, hms, he]⟩

/-- Witness for C4: a single "pending" read in the window. -/
theorem no_started_never_ready_witness :
    (∃ e, resourceElasticsearchClusterCreate resourceDataEx createEnvEx
      = (resourceDataEx, .error e))
    ∧ (∃ e, (resourceElasticsearchClusterUpdate resourceDataEx updateEnvEx).2.2
      = .error e)
    ∧ (waitForElasticsearchClusterStatus "started" false
        [.ok pendingInfoEx]).1 = .timeout :=
  ⟨no_started_never_ready.1 resourceDataEx createEnvEx (by decide),
   no_started_never_ready.2.1 resourceDataEx updateEnvEx rfl (by decide),
   no_started_never_ready.2.2 [.ok pendingInfoEx] (by decide)⟩

/-- C5: once the shutdown request succeeds, the delete's call sequence is
exactly shutdown, then the polls of the "stopped"-or-absent wait (whose
outcome — timeout included — never blocks the next step), then the DELETE
request; and when the first post-shutdown read already returns 404, the
wait succeeds immediately and the whole delete succeeds provided the
DELETE returns 200. -/
theorem delete_shutdown_poll_then_delete :
    (∀ (id : String) (env : DeleteEnv), env.shutdownResult = .ok () →
      (DeleteElasticsearchCluster id env).1 =
        APICall.shutdownCluster id ::
          (List.replicate
            (waitForElasticsearchClusterStatus "stopped" true env.reads).2
            (APICall.getCluster id) ++ [APICall.deleteCluster id]))
    ∧ (∀ (id : String) (env : DeleteEnv) (rest : List ReadOutcome),
      env.shutdownResult = .ok () →
      env.reads = ReadOutcome.notFound :: rest →
      env.deleteHTTP = .ok 200 →
      (waitForElasticsearchClusterStatus "stopped" true env.reads).1 = .success
      ∧ (DeleteElasticsearchCluster id env).2 = .ok ()) := by
  constructor
  · intro id env hs
    simp [DeleteElasticsearchCluster, hs]
  · intro id env rest hs hr hd
    constructor
    · rw [hr]
      rfl
    · simp [DeleteElasticsearchCluster, hs, hd]

/-- Witness for C5: a timed-out wait still reaches the DELETE, and an
immediately-absent cluster deletes cleanly. -/
theorem delete_shutdown_poll_then_delete_witness :
    ((DeleteElasticsearchCluster "es-1" deleteEnvTimeoutEx).1 =
      APICall.shutdownCluster "es-1" ::
        (List.replicate
          (waitForElasticsearchClusterStatus "stopped" true deleteEnvTimeoutEx.reads).2
          (APICall.getCluster "es-1") ++ [APICall.deleteCluster "es-1"]))
    ∧ ((waitForElasticsearchClusterStatus "stopped" true deleteEnvGoneEx.reads).1
        = .success
      ∧ (DeleteElasticsearchCluster "es-1" deleteEnvGoneEx).2 = .ok ()) :=
  ⟨delete_shutdown_poll_then_delete.1 "es-1" deleteEnvTimeoutEx rfl,
   delete_shutdown_poll_then_delete.2 "es-1" deleteEnvGoneEx [] rfl rfl rfl⟩

/-- C10: an Update whose initial read returns 404 fails immediately: the
only API call issued is the read itself (no metadata update, no plan
submission, no companion call) and the resource data — the persisted
identity included — is returned unchanged. -/
theorem update_404_no_mutation (d : ResourceData) (env : UpdateEnv)
    (h : env.initialRead = .ok 404) :
    resourceElasticsearchClusterUpdate d env
      = (d, [APICall.getCluster d.id], .error .notFoundForUpdate) := by
  simp [resourceElasticsearchClusterUpdate, h]

/-- Witness for C10. -/
theorem update_404_no_mutation_witness :
    resourceElasticsearchClusterUpdate resourceDataEx notFoundUpdateEnvEx
      = (resourceDataEx, [APICall.getCluster resourceDataEx.id],
         .error .notFoundForUpdate) :=
  update_404_no_mutation resourceDataEx notFoundUpdateEnvEx rfl

/-- The trailing Kibana wait/validate block preserves the head of the call
trace it is given. -/
theorem kibanaPostSection_trace_head (d : ResourceData) (kid : String)
    (a : APICall) (t : List APICall) (env : UpdateEnv) :
    (kibanaPostSection d kid (a :: t) env).2.1.head? = some a := by
  cases hw : (waitForKibanaClusterStatus "started" false env.kibanaReads).1 with
  | success =>
    cases hv : validateKibanaClusterPlanActivity env.kibanaActivity with
    | error e => simp [kibanaPostSection, hw, hv]
    | ok u => simp [kibanaPostSection, hw, hv]
  | timeout => simp [kibanaPostSection, hw]
  | fatal s => simp [kibanaPostSection, hw]

/-- C9: companion reconciliation is decided by persisted identity versus
desired state — no desired Kibana block with a persisted identity deletes
the companion and clears the identity; a desired block with no persisted
identity issues a companion create whose request references the primary's
identifier. -/
theorem kibana_reconciliation :
    (∀ (clusterID : String) (d : ResourceData) (env : UpdateEnv),
      d.kibana = [] → d.kibana_cluster_id ≠ "" → env.kibanaDelete = .ok () →
      updateKibanaCluster clusterID d env =
        ({ d with kibana_cluster_id := "" },
         [APICall.deleteKibana d.kibana_cluster_id], .ok ()))
    ∧ (∀ (clusterID : String) (d : ResourceData) (env : UpdateEnv),
      d.kibana ≠ [] → d.kibana_cluster_id = "" →
      ∃ req, (updateKibanaCluster clusterID d env).2.1.head?
          = some (.createKibana req)
        ∧ req.elasticsearchClusterID = clusterID) := by
  constructor
  · intro clusterID d env hkb hid hdel
    have hidb : (d.kibana_cluster_id == "") = false := beq_eq_false_iff_ne.mpr hid
    simp [updateKibanaCluster, hkb, hidb, hdel, expandKibanaCreateRequest]
  · intro clusterID d env hne hid
    have hidb : (d.kibana_cluster_id == "") = true := beq_iff_eq.mpr hid
    cases hkb : d.kibana with
    | nil => exact absurd hkb hne
    | cons hd tl =>
      cases hd with
      | none =>
        refine ⟨{ clusterName := ""
                  elasticsearchClusterID := clusterID
                  plan := DefaultKibanaClusterPlan }, ?_, rfl⟩
        simp only [updateKibanaCluster, hkb, hidb, expandKibanaCreateRequest, if_pos rfl]
        cases hc : env.kibanaCreate with
        | error s => simp [hc]
        | ok newID =>
          cases hnew : (newID == "") with
          | true => simp [hc, hnew]
          | false => simp [hc, hnew, kibanaPostSection_trace_head]
      | some km =>
        refine ⟨{ clusterName := km.cluster_name.getD ""
                  elasticsearchClusterID := clusterID
                  plan := match km.plan with
                    | some inputPlan =>
                      expandKibanaClusterPlan DefaultKibanaClusterPlan inputPlan
                    | none => DefaultKibanaClusterPlan }, ?_, rfl⟩
        simp only [updateKibanaCluster, hkb, hidb, expandKibanaCreateRequest, if_pos rfl]
        cases hc : env.kibanaCreate with
        | error s => simp [hc]
        | ok newID =>
          cases hnew : (newID == "") with
          | true => simp [hc, hnew]
          | false => simp [hc, hnew, kibanaPostSection_trace_head]

/-- Witness for C9: deleting the persisted companion and creating a new
one referencing the primary. -/
theorem kibana_reconciliation_witness :
    (updateKibanaCluster "es-1" kibanaDeleteDataEx updateEnvEx =
      ({ kibanaDeleteDataEx with kibana_cluster_id := "" },
       [APICall.deleteKibana kibanaDeleteDataEx.kibana_cluster_id], .ok ()))
    ∧ (∃ req, (updateKibanaCluster "es-1" kibanaCreateDataEx updateEnvEx).2.1.head?
        = some (.createKibana req)
      ∧ req.elasticsearchClusterID = "es-1") :=
  ⟨kibana_reconciliation.1 "es-1" kibanaDeleteDataEx updateEnvEx rfl (by decide) rfl,
   kibana_reconciliation.2 "es-1" kibanaCreateDataEx updateEnvEx (by decide) rfl⟩
